import Mathlib

/-!
Shallow embedding of the device-discovery subsystem of `src/dante/dante_wrapper.c`
(the GOlane Dante wrapper).  The vendor SDK (DAPI) is modelled abstractly: its
calls become explicit inputs (error codes, device-state traces, metadata fields),
exactly as the wrapper observes them through the provider interface of spec §6.
C strings are Lean `String`s; `snprintf(buf, n, "%s", s)` keeps the first `n - 1`
characters.  Machine integers that matter (`uint32_t` addresses) are `Nat` with
explicit masking; C `int` return values and counts are `Int`.
-/

namespace DanteWrapper

/-- Provider error code type (`aud_error_t`); `AUD_SUCCESS` is the zero code. -/
abbrev AudError := Int

/-- The success code `AUD_SUCCESS` of the provider. -/
def AUD_SUCCESS : AudError := 0

/-- Device connection states (`dr_device_state_t`), from the provider interface
of spec §6: `connection.state() -> {Resolving, Resolved, Active, Error}`. -/
inductive DrDeviceState where
  | resolving
  | resolved
  | active
  | error
deriving DecidableEq, Repr

/-- Router version triple (`dante_version_t`): `major.minor.bugfix`, unsigned. -/
structure DanteVersion where
  major : Nat
  minor : Nat
  bugfix : Nat
deriving DecidableEq, Repr

/-- Metadata of one raw browsed device (`db_browse_device_t`) as read by the
callback.  `manufacturer_id`/`model_id` hold the DNS-SD text encodings that
`dante_id64_to_dnssd_text` produces for the respective `dante_id64_t` (the
encoder itself lives in the closed vendor SDK; the wrapper only concatenates
its output).  `none` models a NULL pointer from the provider. -/
structure RawDevice where
  name : Option String
  router_info : Option String
  manufacturer_id : Option String
  model_id : Option String
  default_name : Option String
  router_version : Option DanteVersion
deriving DecidableEq, Repr

/-- Provider-side behaviour of one device during address resolution:
whether `dr_device_open_remote` succeeds, the state observed by
`dr_device_get_state` at each poll attempt, and the outcome of
`dr_device_get_address` (`some v` is the host-order 32-bit value obtained
after the wrapper's `ntohl(device_address.host)`, `none` a read failure). -/
structure ResolveBehavior where
  open_ok : Bool
  state_at : Nat → DrDeviceState
  addr_result : Option Nat

/-- A discovered-device record (`dante_device_info_t`).  The defaults are the
all-zero record that `memset` leaves in an unpopulated slot. -/
structure DeviceInfo where
  id : Int := 0
  name : String := ""
  model : String := ""
  product_version : String := ""
  dante_version : String := ""
  ip_address : String := ""
  link_speed : Int := 0
  is_valid : Bool := false
deriving DecidableEq, Repr

/-- `MAX_DEVICES` from the wrapper: capacity of the device table. -/
def MAX_DEVICES : Nat := 32

/-- `snprintf(buf, size, "%s", s)`: stores at most `size - 1` characters of
`s` into a `size`-byte buffer (one byte is the terminator). -/
def snprintf_str (size : Nat) (s : String) : String :=
  String.mk (s.data.take (size - 1))

/-- Name field: `db_browse_device_get_name` result if non-NULL, else the
synthesized `"Unknown Device %d"` placeholder, into `char name[64]`. -/
def name_of (d : RawDevice) (id : Int) : String :=
  match d.name with
  | some n => snprintf_str 64 n
  | none => snprintf_str 64 ("Unknown Device " ++ toString id)

/-- Model fallback after the `router_info` check fails: manufacturer/model
identifier pair joined with `-`, else `default_name`, else `"Unknown Model"`
(the `else if (mf_id && model_id) ... else if (default_name) ... else` chain). -/
def model_fallback (d : RawDevice) : String :=
  match d.manufacturer_id, d.model_id with
  | some mf, some md => snprintf_str 64 (mf ++ "-" ++ md)
  | _, _ =>
    match d.default_name with
    | some dn => snprintf_str 64 dn
    | none => snprintf_str 64 "Unknown Model"

/-- Model field: `if (router_info && strlen(router_info) > 0)` use it,
otherwise fall through to `model_fallback`; target buffer is `char model[64]`. -/
def model_of (d : RawDevice) : String :=
  match d.router_info with
  | some ri => if ri.length > 0 then snprintf_str 64 ri else model_fallback d
  | none => model_fallback d

/-- Dante version field: `"%u.%u.%u"` of the router version if present,
else `"Unknown"`, into `char dante_version[32]`. -/
def dante_version_of (d : RawDevice) : String :=
  match d.router_version with
  | some v =>
    snprintf_str 32
      (toString v.major ++ "." ++ toString v.minor ++ "." ++ toString v.bugfix)
  | none => snprintf_str 32 "Unknown"

/-- Rendering of a host-order 32-bit address `v` by
`snprintf(info->ip_address, 16, "%u.%u.%u.%u", (v>>24)&0xFF, (v>>16)&0xFF,
(v>>8)&0xFF, v&0xFF)`. -/
def render_ip (v : Nat) : String :=
  snprintf_str 16
    (toString ((v >>> 24) &&& 0xFF) ++ "." ++ toString ((v >>> 16) &&& 0xFF)
      ++ "." ++ toString ((v >>> 8) &&& 0xFF) ++ "." ++ toString (v &&& 0xFF))

/-- Resolution poll loop (`for (attempt = 0; attempt < max_wait_attempts; ...)`):
at each attempt the state is read; the loop breaks on `Resolved`/`Active` or on
`Error`, otherwise it sleeps 100 ms and retries.  The value returned is the
last state observed (the C `state` variable after the loop).  `rest` counts the
attempts remaining after the current one, so `poll_final s 0 29` performs the
wrapper's 30 observations. -/
def poll_final (state_at : Nat → DrDeviceState) : Nat → Nat → DrDeviceState
  | attempt, 0 => state_at attempt
  | attempt, rest + 1 =>
    let s := state_at attempt
    if s = DrDeviceState.resolved ∨ s = DrDeviceState.active then s
    else if s = DrDeviceState.error then s
    else poll_final state_at (attempt + 1) rest

/-- Address resolution for one device (the IP block of the callback):
open a transient routing connection; on success poll up to 30 times; if the
final state is `Resolved`/`Active`, read the address and render it; every
other path yields the sentinel `"0.0.0.0"`. -/
def resolve_ip (b : ResolveBehavior) : String :=
  if b.open_ok then
    let s := poll_final b.state_at 0 29
    if s = DrDeviceState.resolved ∨ s = DrDeviceState.active then
      match b.addr_result with
      | some host => render_ip host
      | none => "0.0.0.0"
    else "0.0.0.0"
  else "0.0.0.0"

/-- Record built for one raw device when the running table already holds
`count` records: `id = g_device_count + 1`, `is_valid = 1`, metadata fields by
the fallback chains, `product_version = "N/A"`, `link_speed = -1`, and the
address via `resolve_ip`. -/
def build_info (count : Nat) (d : RawDevice) (b : ResolveBehavior) : DeviceInfo :=
  let id : Int := (count : Int) + 1
  { id := id
    is_valid := true
    name := name_of d id
    model := model_of d
    product_version := snprintf_str 32 "N/A"
    dante_version := dante_version_of d
    ip_address := resolve_ip b
    link_speed := -1 }

/-- The browsed network as the callback observes it:
`db_browse_network_get_num_devices` (a `uint16_t`) and
`db_browse_network_device_at_index` (NULL modelled as `none`); the attached
`ResolveBehavior` is how the provider answers the resolution of that device. -/
structure BrowseNetwork where
  num_devices : Nat
  device_at : Nat → Option (RawDevice × ResolveBehavior)

/-- Body of the rebuild loop: iterate `rem` more indices starting at `i`, with
`count` records built so far; a NULL device (`continue`) is skipped without
incrementing the count. -/
def rebuild_from (net : BrowseNetwork) : Nat → Nat → Nat → List DeviceInfo
  | _, _, 0 => []
  | i, count, rem + 1 =>
    match net.device_at i with
    | none => rebuild_from net (i + 1) count rem
    | some (d, b) => build_info count d b :: rebuild_from net (i + 1) (count + 1) rem

/-- `browse_network_changed_callback`: clear the table, then loop
`i < device_count && i < MAX_DEVICES`, building one record per non-NULL device.
The result is the populated prefix of `g_discovered_devices`. -/
def browse_network_changed_callback (net : BrowseNetwork) : List DeviceInfo :=
  rebuild_from net 0 0 (min net.num_devices MAX_DEVICES)

/-- The wrapper's global state.  Each pointer global becomes a `Bool`
(non-NULL flag); `slots` is the populated prefix of `g_discovered_devices`
(slots past it are the `memset`-zeroed record `{}`), `device_count` is
`g_device_count`, `error_buffer` is `g_error_buffer`. -/
structure GlobalState where
  dapi : Bool
  runtime : Bool
  devices_mgr : Bool
  env : Bool
  device : Bool
  browse : Bool
  device_scan_active : Bool
  background_scanning : Bool
  device_ready : Bool
  slots : List DeviceInfo
  device_count : Int
  error_buffer : String
deriving DecidableEq, Repr

/-- Read of `g_discovered_devices[i]`: a populated slot, or the zeroed record. -/
def slot_at (st : GlobalState) (i : Nat) : DeviceInfo :=
  st.slots.getD i {}

/-- Effect of a network-changed delivery on the globals: the table is cleared
and rebuilt, `g_device_count` becomes the number of records built. -/
def apply_network_changed (net : BrowseNetwork) (st : GlobalState) : GlobalState :=
  let built := browse_network_changed_callback net
  { st with slots := built, device_count := (built.length : Int) }

/-- `dante_get_discovered_device_count`: returns `g_device_count`. -/
def dante_get_discovered_device_count (st : GlobalState) : Int :=
  st.device_count

/-- Failure cases of `dante_get_device_info` (each sets `g_error_buffer` and
returns `-1` in C). -/
inductive DeviceInfoErr where
  | invalidPointer
  | indexOutOfRange
  | invalidRecord
deriving DecidableEq, Repr

/-- `dante_get_device_info(index, info)`: NULL `info` fails; an index outside
`[0, g_device_count)` fails; an in-range slot with `is_valid == 0` fails; else
`*info = g_discovered_devices[index]` (a copy) and `0` is returned.
`info_ptr` is the non-NULL flag of the output pointer; the returned state is
the global state after the call (only `g_error_buffer` can change). -/
def dante_get_device_info (index : Int) (info_ptr : Bool) (st : GlobalState) :
    Except DeviceInfoErr DeviceInfo × GlobalState :=
  if info_ptr = false then
    (Except.error DeviceInfoErr.invalidPointer,
      { st with error_buffer := "Invalid info pointer" })
  else if index < 0 ∨ index ≥ st.device_count then
    (Except.error DeviceInfoErr.indexOutOfRange,
      { st with error_buffer :=
          "Invalid device index: " ++ toString index ++ " (available: 0-"
            ++ toString (st.device_count - 1) ++ ")" })
  else if (slot_at st index.toNat).is_valid = false then
    (Except.error DeviceInfoErr.invalidRecord,
      { st with error_buffer :=
          "Device at index " ++ toString index ++ " is not valid" })
  else
    (Except.ok (slot_at st index.toNat), st)

/-- Outcomes of the three provider calls made by `dante_start_device_scan`,
in call order: `db_browse_new`, `db_browse_set_max_sockets`,
`db_browse_start_config` (each an `aud_error_t`; later values are irrelevant
when an earlier call fails, since the function returns at once). -/
structure BrowseProvider where
  new_result : AudError
  set_max_sockets_result : AudError
  start_config_result : AudError

/-- `dante_start_device_scan`: fails if not initialized; returns success at
once if a browse already exists; otherwise creates the browse, configures the
socket capacity and starts it, deleting the half-built browse (and leaving
`g_browse = NULL`) when a later step fails; on full success the browse and the
scan flags become set. -/
def dante_start_device_scan (p : BrowseProvider) (st : GlobalState) :
    Int × GlobalState :=
  if st.env = false then
    (-1, { st with error_buffer := "Dante API not initialized" })
  else if st.browse then
    (0, st)
  else if p.new_result ≠ AUD_SUCCESS then
    (-1, { st with error_buffer :=
        "Failed to create browse object: " ++ toString p.new_result })
  else if p.set_max_sockets_result ≠ AUD_SUCCESS then
    (-1, { st with error_buffer :=
        "Failed to set max sockets: " ++ toString p.set_max_sockets_result })
  else if p.start_config_result ≠ AUD_SUCCESS then
    (-1, { st with error_buffer :=
        "Failed to start browse: " ++ toString p.start_config_result })
  else
    (0, { st with
            browse := true
            device_scan_active := true
            background_scanning := true })

/-- `dante_stop_device_scan`: success at once if no browse exists; otherwise
stops and deletes the browse and clears the scan flags.  The device table and
`g_device_count` are not touched. -/
def dante_stop_device_scan (st : GlobalState) : Int × GlobalState :=
  if st.browse = false then (0, st)
  else
    (0, { st with
            browse := false
            device_scan_active := false
            background_scanning := false })

/-- `dante_cleanup`: stop the scan if a browse exists, close/delete every
handle, clear all flags, zero `g_device_count` and `memset` the device table. -/
def dante_cleanup (st : GlobalState) : GlobalState :=
  let st1 := if st.browse then (dante_stop_device_scan st).2 else st
  { st1 with
    device := false
    devices_mgr := false
    dapi := false
    runtime := false
    env := false
    device_ready := false
    device_scan_active := false
    background_scanning := false
    device_count := 0
    slots := [] }

/-- Provider-side behaviour for `dante_connect_local_device`: the result of
`dr_device_open_local` and the local device's state at each 1 Hz poll. -/
structure LocalDeviceEnv where
  open_result : AudError
  state_at : Nat → DrDeviceState

/-- The wait loop of `dante_connect_local_device`
(`int timeout = 50; while (timeout-- > 0) { if ACTIVE return 0; sleep(1); }`):
true iff the state is `Active` at one of the `fuel` polls starting at `t`. -/
def wait_active (state_at : Nat → DrDeviceState) : Nat → Nat → Bool
  | _, 0 => false
  | t, fuel + 1 =>
    if state_at t = DrDeviceState.active then true
    else wait_active state_at (t + 1) fuel

/-- `dante_connect_local_device`: fails if not initialized; opens the local
device; then polls its state at 1-second intervals, up to the loop bound of
50 polls taken verbatim from the source (`int timeout = 50`), succeeding as
soon as the state is `Active` and reporting a connection timeout otherwise. -/
def dante_connect_local_device (e : LocalDeviceEnv) (st : GlobalState) :
    Int × GlobalState :=
  if st.devices_mgr = false then
    (-1, { st with error_buffer := "Dante not initialized" })
  else if e.open_result ≠ AUD_SUCCESS then
    (-1, { st with error_buffer :=
        "Failed to connect to local device: " ++ toString e.open_result })
  else if wait_active e.state_at 0 50 then
    (0, { st with device := true, device_ready := true })
  else
    (-1, { st with
            device := true
            error_buffer := "Device connection timeout" })

/-- Modelled from the spec: the bounded wait the spec attributes to
`connect_local_device` — "5s bounded wait", "5 seconds, 1 Hz poll" — i.e. the
same 1 Hz poll-for-`Active` loop but with a 5-poll bound.  (The numeric bound
is the part the source's inline comment `// 5秒超時` also states; the source
code itself uses 50.) -/
def spec_wait_active (state_at : Nat → DrDeviceState) : Bool :=
  wait_active state_at 0 5

/-! Concrete fixtures used by witnesses and counterexamples. -/

/-- A resolve behaviour whose control connection cannot be opened. -/
def no_open_behavior : ResolveBehavior :=
  { open_ok := false, state_at := fun _ => DrDeviceState.resolving,
    addr_result := none }

/-- A raw device with every metadata source present. -/
def sample_device : RawDevice :=
  { name := some "devA", router_info := some "ULTIMOX4",
    manufacturer_id := some "AABB", model_id := some "CCDD",
    default_name := some "Foo", router_version := some ⟨4, 2, 1⟩ }

/-- A fresh, initialized, not-yet-scanning global state. -/
def fresh_state : GlobalState :=
  { dapi := true, runtime := true, devices_mgr := true, env := true,
    device := false, browse := false, device_scan_active := false,
    background_scanning := false, device_ready := false, slots := [],
    device_count := 0, error_buffer := "" }

/-! Helper lemmas about the resolution poll loop and the rebuild loop. -/

/-- If no poll in the window observes `Resolved` or `Active`, the loop's final
state is not `Resolved` or `Active` either. -/
theorem poll_final_not_ok (state_at : Nat → DrDeviceState) :
    ∀ (rest a : Nat),
      (∀ t, t < rest + 1 →
        state_at (a + t) ≠ DrDeviceState.resolved ∧
          state_at (a + t) ≠ DrDeviceState.active) →
      poll_final state_at a rest ≠ DrDeviceState.resolved ∧
        poll_final state_at a rest ≠ DrDeviceState.active := by
  intro rest
  induction rest with
  | zero =>
    intro a h
    have h0 := h 0 (by omega)
    rw [Nat.add_zero] at h0
    simpa [poll_final] using h0
  | succ rest ih =>
    intro a h
    have h0 := h 0 (by omega)
    rw [Nat.add_zero] at h0
    have hcond : ¬(state_at a = DrDeviceState.resolved ∨
        state_at a = DrDeviceState.active) := by
      rintro (h1 | h1)
      · exact h0.1 h1
      · exact h0.2 h1
    simp only [poll_final]
    rw [if_neg hcond]
    by_cases herr : state_at a = DrDeviceState.error
    · rw [if_pos herr]
      exact h0
    · rw [if_neg herr]
      apply ih (a + 1)
      intro t ht
      have := h (t + 1) (by omega)
      rwa [show a + 1 + t = a + (t + 1) from by omega]

/-- If some poll in the window observes `Error` before any `Resolved`/`Active`
is seen, the loop's final state is `Error` (the early abort of the loop). -/
theorem poll_final_error (state_at : Nat → DrDeviceState) :
    ∀ (t rest a : Nat), t ≤ rest →
      state_at (a + t) = DrDeviceState.error →
      (∀ u, u < t →
        state_at (a + u) ≠ DrDeviceState.resolved ∧
          state_at (a + u) ≠ DrDeviceState.active) →
      poll_final state_at a rest = DrDeviceState.error := by
  intro t
  induction t with
  | zero =>
    intro rest a _ herr _
    rw [Nat.add_zero] at herr
    cases rest with
    | zero => simpa [poll_final] using herr
    | succ rest =>
      simp only [poll_final]
      rw [if_neg, if_pos herr]
      · exact herr
      · rintro (h1 | h1) <;> simp [herr] at h1
  | succ t ih =>
    intro rest a hle herr hu
    have h0 := hu 0 (by omega)
    rw [Nat.add_zero] at h0
    cases rest with
    | zero => omega
    | succ rest =>
      simp only [poll_final]
      have hcond : ¬(state_at a = DrDeviceState.resolved ∨
          state_at a = DrDeviceState.active) := by
        rintro (h1 | h1)
        · exact h0.1 h1
        · exact h0.2 h1
      rw [if_neg hcond]
      by_cases herr0 : state_at a = DrDeviceState.error
      · rw [if_pos herr0]
        exact herr0
      · rw [if_neg herr0]
        apply ih rest (a + 1) (by omega)
        · rwa [show a + 1 + t = a + (t + 1) from by omega]
        · intro u hu2
          have := hu (u + 1) (by omega)
          rwa [show a + 1 + u = a + (u + 1) from by omega]

/-- Every failure mode of address resolution — connection cannot be opened,
`Error` observed before any `Resolved`/`Active`, or no `Resolved`/`Active`
within the 30 polls — yields the sentinel address. -/
theorem resolve_ip_fail (b : ResolveBehavior)
    (h : b.open_ok = false
      ∨ (∃ t, t < 30 ∧ b.state_at t = DrDeviceState.error ∧
          ∀ u, u < t → b.state_at u ≠ DrDeviceState.resolved ∧
            b.state_at u ≠ DrDeviceState.active)
      ∨ (∀ t, t < 30 → b.state_at t ≠ DrDeviceState.resolved ∧
          b.state_at t ≠ DrDeviceState.active)) :
    resolve_ip b = "0.0.0.0" := by
  rcases h with h | ⟨t, ht, herr, hu⟩ | h
  · simp [resolve_ip, h]
  · have hp : poll_final b.state_at 0 29 = DrDeviceState.error := by
      apply poll_final_error b.state_at t 29 0 (by omega)
      · simpa using herr
      · intro u hu2
        simpa using hu u hu2
    cases hob : b.open_ok
    · simp [resolve_ip, hob]
    · simp [resolve_ip, hob, hp]
  · have hp := poll_final_not_ok b.state_at 29 0 (by
      intro u hu2
      simpa using h u (by omega))
    cases hob : b.open_ok
    · simp [resolve_ip, hob]
    · simp [resolve_ip, hob, hp.1, hp.2]

/-- When the provider delivers a device at every index of the window, the
rebuild loop builds exactly one record per index. -/
theorem rebuild_from_length (net : BrowseNetwork) :
    ∀ (rem i count : Nat),
      (∀ k, k < rem → (net.device_at (i + k)).isSome) →
      (rebuild_from net i count rem).length = rem := by
  intro rem
  induction rem with
  | zero => intro i count _; rfl
  | succ rem ih =>
    intro i count h
    have h0 := h 0 (by omega)
    rw [Nat.add_zero] at h0
    rcases hdev : net.device_at i with _ | ⟨d, b⟩
    · rw [hdev] at h0
      simp at h0
    · have hrec := ih (i + 1) (count + 1) (fun k hk => by
        have := h (k + 1) (by omega)
        rwa [show i + 1 + k = i + (k + 1) from by omega])
      simp only [rebuild_from, hdev, List.length_cons, hrec]

/-- When the provider delivers a device at every index of the window, the
record at index `j` of the rebuilt list is the one built from device `j`. -/
theorem rebuild_from_getD (net : BrowseNetwork) :
    ∀ (rem i count j : Nat) (d : RawDevice) (b : ResolveBehavior),
      (∀ k, k < rem → (net.device_at (i + k)).isSome) →
      j < rem → net.device_at (i + j) = some (d, b) →
      (rebuild_from net i count rem).getD j {} = build_info (count + j) d b := by
  intro rem
  induction rem with
  | zero => intro i count j d b _ hj _; omega
  | succ rem ih =>
    intro i count j d b hall hj hdev
    have h0 := hall 0 (by omega)
    rw [Nat.add_zero] at h0
    rcases hdev0 : net.device_at i with _ | ⟨d0, b0⟩
    · rw [hdev0] at h0
      simp at h0
    · cases j with
      | zero =>
        rw [Nat.add_zero] at hdev
        have hpair : (d0, b0) = (d, b) := by
          rw [hdev0] at hdev
          exact Option.some.inj hdev
        obtain ⟨hd, hb⟩ := Prod.mk.injEq d0 b0 d b ▸ hpair
        subst hd
        subst hb
        simp only [rebuild_from, hdev0, List.getD_cons_zero, Nat.add_zero]
      | succ j =>
        have hrec := ih (i + 1) (count + 1) j d b (fun k hk => by
            have := hall (k + 1) (by omega)
            rwa [show i + 1 + k = i + (k + 1) from by omega])
          (by omega)
          (by rwa [show i + 1 + j = i + (j + 1) from by omega])
        simp only [rebuild_from, hdev0, List.getD_cons_succ, hrec]
        rw [show count + 1 + j = count + (j + 1) from by omega]

/-! Claim theorems. -/

/-- A device whose router-info string is 64 characters long, used to exhibit
the `snprintf` truncation of the 64-byte `model` field. -/
def long_router_device : RawDevice :=
  { name := some "long", router_info := some (String.mk (List.replicate 64 'A')),
    manufacturer_id := none, model_id := none, default_name := none,
    router_version := none }

/-- A one-device network delivering `long_router_device`. -/
def long_router_net : BrowseNetwork :=
  { num_devices := 1
    device_at := fun i =>
      ([(long_router_device, no_open_behavior)] :
        List (RawDevice × ResolveBehavior)).get? i }

/-- C1, counterexample to the claim as stated: the record built from a device
whose router-supplied model string has 64 characters does not carry that
string in its `model` field — the `snprintf` into the fixed `char model[64]`
keeps only the first 63 characters. -/
theorem c1_model_chain_counterexample :
    ((browse_network_changed_callback long_router_net).getD 0 {}).model
        ≠ String.mk (List.replicate 64 'A') ∧
      ((browse_network_changed_callback long_router_net).getD 0 {}).model
        = String.mk (List.replicate 63 'A') := by decide

/-- C1 (amended): the `model` field is resolved by the priority chain —
non-empty router-supplied model string, else manufacturer/model identifier
text encodings joined with a hyphen, else a present provider default name,
else the literal `"Unknown Model"` — with the winning source truncated to the
63 characters that fit the fixed 64-byte field. -/
theorem c1_model_chain (count : Nat) (d : RawDevice) (b : ResolveBehavior) :
    (∀ ri, d.router_info = some ri → ri ≠ "" →
        (build_info count d b).model = String.mk (ri.data.take 63)) ∧
      ((d.router_info = none ∨ d.router_info = some "") →
        ∀ mf md, d.manufacturer_id = some mf → d.model_id = some md →
          (build_info count d b).model = String.mk ((mf ++ "-" ++ md).data.take 63)) ∧
      ((d.router_info = none ∨ d.router_info = some "") →
        (d.manufacturer_id = none ∨ d.model_id = none) →
        ∀ dn, d.default_name = some dn →
          (build_info count d b).model = String.mk (dn.data.take 63)) ∧
      ((d.router_info = none ∨ d.router_info = some "") →
        (d.manufacturer_id = none ∨ d.model_id = none) →
        d.default_name = none →
        (build_info count d b).model = "Unknown Model") := by
  have hbuild : (build_info count d b).model = model_of d := rfl
  refine ⟨?_, ?_, ?_, ?_⟩
  · intro ri hri hne
    have hd : ri.data ≠ [] := by
      intro hnil
      apply hne
      cases ri
      simp only at hnil
      rw [hnil]
    have hpos : ri.length > 0 := List.length_pos.mpr hd
    rw [hbuild]
    simp only [model_of, hri]
    rw [if_pos hpos]
    rfl
  · have hfb : ∀ mf md, d.manufacturer_id = some mf → d.model_id = some md →
        model_fallback d = String.mk ((mf ++ "-" ++ md).data.take 63) := by
      intro mf md hmf hmd
      simp only [model_fallback, hmf, hmd]
      rfl
    rintro (h | h) mf md hmf hmd
    · rw [hbuild]
      simp only [model_of, h]
      exact hfb mf md hmf hmd
    · rw [hbuild]
      simp only [model_of, h]
      rw [if_neg (by decide)]
      exact hfb mf md hmf hmd
  · have hfb : (d.manufacturer_id = none ∨ d.model_id = none) →
        ∀ dn, d.default_name = some dn →
          model_fallback d = String.mk (dn.data.take 63) := by
      rintro (hmf | hmd) dn hdn
      · simp only [model_fallback, hmf, hdn]
        rfl
      · rcases hmf2 : d.manufacturer_id with _ | mf
        · simp only [model_fallback, hmf2, hdn]
          rfl
        · simp only [model_fallback, hmf2, hmd, hdn]
          rfl
    rintro (h | h) hmm dn hdn
    · rw [hbuild]
      simp only [model_of, h]
      exact hfb hmm dn hdn
    · rw [hbuild]
      simp only [model_of, h]
      rw [if_neg (by decide)]
      exact hfb hmm dn hdn
  · have hfb : (d.manufacturer_id = none ∨ d.model_id = none) →
        d.default_name = none → model_fallback d = "Unknown Model" := by
      rintro (hmf | hmd) hdn
      · simp only [model_fallback, hmf, hdn]
        decide
      · rcases hmf2 : d.manufacturer_id with _ | mf
        · simp only [model_fallback, hmf2, hdn]
          decide
        · simp only [model_fallback, hmf2, hmd, hdn]
          decide
    rintro (h | h) hmm hdn
    · rw [hbuild]
      simp only [model_of, h]
      exact hfb hmm hdn
    · rw [hbuild]
      simp only [model_of, h]
      rw [if_neg (by decide)]
      exact hfb hmm hdn

/-- C1 witness: on a device whose router info is `"ULTIMOX4"` and whose other
metadata is also present, the built record's model is `"ULTIMOX4"`. -/
theorem c1_model_chain_witness :
    (build_info 0 sample_device no_open_behavior).model = "ULTIMOX4" := by
  have h := (c1_model_chain 0 sample_device no_open_behavior).1 "ULTIMOX4" rfl
    (by decide)
  rw [h]
  decide

/-- C2: for every provider-reported device count, the rebuilt snapshot's
count is that number when it is at most 32 and is 32 when it exceeds 32
(devices past the 32nd are dropped), provided the provider actually delivers
a device handle at each reported index of the window. -/
theorem c2_capacity (net : BrowseNetwork) (st : GlobalState)
    (h : ∀ i, i < min net.num_devices MAX_DEVICES → (net.device_at i).isSome) :
    (net.num_devices ≤ 32 →
        dante_get_discovered_device_count (apply_network_changed net st)
          = (net.num_devices : Int)) ∧
      (32 < net.num_devices →
        dante_get_discovered_device_count (apply_network_changed net st) = 32) := by
  have hM : MAX_DEVICES = 32 := rfl
  have hlen : (browse_network_changed_callback net).length
      = min net.num_devices MAX_DEVICES := by
    apply rebuild_from_length
    intro k hk
    have := h k hk
    rwa [Nat.zero_add]
  constructor
  · intro h32
    show ((browse_network_changed_callback net).length : Int) = _
    rw [hlen]
    have hmin : min net.num_devices MAX_DEVICES = net.num_devices := by
      rw [hM]; omega
    rw [hmin]
  · intro h32
    show ((browse_network_changed_callback net).length : Int) = 32
    rw [hlen]
    have hmin : min net.num_devices MAX_DEVICES = 32 := by
      rw [hM]; omega
    rw [hmin]
    rfl

/-- A three-device network in which every device is present. -/
def sample_net3 : BrowseNetwork :=
  { num_devices := 3
    device_at := fun i =>
      ([(sample_device, no_open_behavior), (sample_device, no_open_behavior),
        (sample_device, no_open_behavior)] :
        List (RawDevice × ResolveBehavior)).get? i }

/-- C2 witness: a provider reporting three devices yields a count of three. -/
theorem c2_capacity_witness :
    dante_get_discovered_device_count
      (apply_network_changed sample_net3 fresh_state) = 3 := by
  have h := (c2_capacity sample_net3 fresh_state (by decide)).1 (by decide)
  exact h

/-- C4: a device whose address resolution fails — the control connection
cannot be opened, or `Error` is observed before any `Resolved`/`Active`
(early abort), or neither `Resolved` nor `Active` is seen within the 30 polls
— is still included in the rebuilt snapshot, marked valid, with the sentinel
address `"0.0.0.0"`; the rest of the rebuild still produces one record per
delivered device. -/
theorem c4_resolution_failure (net : BrowseNetwork) (i : Nat) (d : RawDevice)
    (b : ResolveBehavior)
    (hall : ∀ j, j < min net.num_devices MAX_DEVICES → (net.device_at j).isSome)
    (hi : i < min net.num_devices MAX_DEVICES)
    (hdev : net.device_at i = some (d, b))
    (hfail : b.open_ok = false
      ∨ (∃ t, t < 30 ∧ b.state_at t = DrDeviceState.error ∧
          ∀ u, u < t → b.state_at u ≠ DrDeviceState.resolved ∧
            b.state_at u ≠ DrDeviceState.active)
      ∨ (∀ t, t < 30 → b.state_at t ≠ DrDeviceState.resolved ∧
          b.state_at t ≠ DrDeviceState.active)) :
    (browse_network_changed_callback net).length
        = min net.num_devices MAX_DEVICES ∧
      ((browse_network_changed_callback net).getD i {}).is_valid = true ∧
      ((browse_network_changed_callback net).getD i {}).ip_address = "0.0.0.0" := by
  have hall0 : ∀ k, k < min net.num_devices MAX_DEVICES →
      (net.device_at (0 + k)).isSome := by
    intro k hk
    rw [Nat.zero_add]
    exact hall k hk
  have hlen := rebuild_from_length net (min net.num_devices MAX_DEVICES) 0 0 hall0
  have hidx := rebuild_from_getD net (min net.num_devices MAX_DEVICES) 0 0 i d b
    hall0 hi (by rwa [Nat.zero_add])
  refine ⟨hlen, ?_, ?_⟩
  · show ((rebuild_from net 0 0 (min net.num_devices MAX_DEVICES)).getD i
      {}).is_valid = true
    rw [hidx]
    rfl
  · show ((rebuild_from net 0 0 (min net.num_devices MAX_DEVICES)).getD i
      {}).ip_address = "0.0.0.0"
    rw [hidx]
    show resolve_ip b = "0.0.0.0"
    exact resolve_ip_fail b hfail

/-- A two-device network whose second device's control connection cannot be
opened. -/
def failing_net : BrowseNetwork :=
  { num_devices := 2
    device_at := fun i =>
      ([(sample_device, no_open_behavior), (sample_device, no_open_behavior)] :
        List (RawDevice × ResolveBehavior)).get? i }

/-- C4 witness: with two devices and the second one unresolvable, the rebuild
still yields two records and the second one is valid with the sentinel IP. -/
theorem c4_resolution_failure_witness :
    (browse_network_changed_callback failing_net).length = 2 ∧
      ((browse_network_changed_callback failing_net).getD 1 {}).is_valid = true ∧
      ((browse_network_changed_callback failing_net).getD 1 {}).ip_address
        = "0.0.0.0" := by
  have h := c4_resolution_failure failing_net 1 sample_device no_open_behavior
    (by decide) (by decide) rfl (Or.inl rfl)
  exact ⟨h.1.trans (by decide), h.2.1, h.2.2⟩

/-- A populated device record, as built for `sample_device`. -/
def sample_record : DeviceInfo :=
  { id := 1, name := "devA", model := "ULTIMOX4", product_version := "N/A",
    dante_version := "4.2.1", ip_address := "0.0.0.0", link_speed := -1,
    is_valid := true }

/-- A state with an active scan and one discovered device. -/
def one_device_state : GlobalState :=
  { fresh_state with
      browse := true
      device_scan_active := true
      background_scanning := true
      slots := [sample_record]
      device_count := 1 }

/-- C3: `dante_get_device_info` succeeds and returns a copy of the stored
record exactly on an in-range index whose slot is valid; an out-of-range
index fails with the index error, and an in-range invalid slot fails with the
invalid-record error. -/
theorem c3_get_device_info (st : GlobalState) (i : Int) :
    ((0 ≤ i ∧ i < st.device_count ∧ (slot_at st i.toNat).is_valid = true) →
        dante_get_device_info i true st = (Except.ok (slot_at st i.toNat), st)) ∧
      ((i < 0 ∨ st.device_count ≤ i) →
        (dante_get_device_info i true st).1
          = Except.error DeviceInfoErr.indexOutOfRange) ∧
      ((0 ≤ i ∧ i < st.device_count ∧ (slot_at st i.toNat).is_valid = false) →
        (dante_get_device_info i true st).1
          = Except.error DeviceInfoErr.invalidRecord) := by
  refine ⟨?_, ?_, ?_⟩
  · rintro ⟨h0, h1, h2⟩
    simp only [dante_get_device_info]
    rw [if_neg (by simp), if_neg (by omega), if_neg (by simp [h2])]
  · intro h
    simp only [dante_get_device_info]
    rw [if_neg (by simp), if_pos (by omega)]
  · rintro ⟨h0, h1, h2⟩
    simp only [dante_get_device_info]
    rw [if_neg (by simp), if_neg (by omega), if_pos h2]

/-- C3 witness: in the one-device state, index 0 succeeds with a copy of the
record and index 1 fails with the index error. -/
theorem c3_get_device_info_witness :
    dante_get_device_info 0 true one_device_state
        = (Except.ok sample_record, one_device_state) ∧
      (dante_get_device_info 1 true one_device_state).1
        = Except.error DeviceInfoErr.indexOutOfRange := by
  constructor
  · exact (c3_get_device_info one_device_state 0).1 ⟨by decide, by decide, by decide⟩
  · exact (c3_get_device_info one_device_state 1).2.1 (Or.inr (by decide))

/-- C5: with the scanner initialized, inactive, and the provider succeeding,
a first `start_scan` returns success and activates the browse; a second
`start_scan` without an intervening stop also returns success and changes
nothing (one session); `stop_scan` twice returns success both times, the
second call a no-op on the already-inactive scanner. -/
theorem c5_idempotence (p : BrowseProvider) (st : GlobalState)
    (henv : st.env = true) (hb : st.browse = false)
    (hnew : p.new_result = AUD_SUCCESS)
    (hset : p.set_max_sockets_result = AUD_SUCCESS)
    (hstart : p.start_config_result = AUD_SUCCESS) :
    (dante_start_device_scan p st).1 = 0 ∧
      (dante_start_device_scan p st).2.browse = true ∧
      (dante_start_device_scan p (dante_start_device_scan p st).2).1 = 0 ∧
      (dante_start_device_scan p (dante_start_device_scan p st).2).2
        = (dante_start_device_scan p st).2 ∧
      ∀ st2 : GlobalState,
        (dante_stop_device_scan st2).1 = 0 ∧
        (dante_stop_device_scan (dante_stop_device_scan st2).2).1 = 0 ∧
        (dante_stop_device_scan (dante_stop_device_scan st2).2).2
          = (dante_stop_device_scan st2).2 := by
  have h1 : dante_start_device_scan p st
      = (0, { st with
                browse := true
                device_scan_active := true
                background_scanning := true }) := by
    simp [dante_start_device_scan, henv, hb, hnew, hset, hstart]
  have h2 : dante_start_device_scan p
        { st with
            browse := true
            device_scan_active := true
            background_scanning := true }
      = (0, { st with
                browse := true
                device_scan_active := true
                background_scanning := true }) := by
    simp [dante_start_device_scan, henv]
  have hstop1 : ∀ st2 : GlobalState, (dante_stop_device_scan st2).1 = 0 := by
    intro st2
    by_cases hx : st2.browse = false <;> simp [dante_stop_device_scan, hx]
  have hstop2 : ∀ st2 : GlobalState,
      (dante_stop_device_scan st2).2.browse = false := by
    intro st2
    by_cases hx : st2.browse = false <;> simp [dante_stop_device_scan, hx]
  have hstopinact : ∀ s : GlobalState, s.browse = false →
      dante_stop_device_scan s = (0, s) := by
    intro s hs
    simp [dante_stop_device_scan, hs]
  have hstop3 : ∀ st2 : GlobalState,
      dante_stop_device_scan (dante_stop_device_scan st2).2
        = (0, (dante_stop_device_scan st2).2) :=
    fun st2 => hstopinact _ (hstop2 st2)
  refine ⟨by rw [h1], by rw [h1], by rw [h1, h2], by rw [h1, h2], ?_⟩
  intro st2
  exact ⟨hstop1 st2, hstop1 _, by rw [hstop3 st2]⟩

/-- A provider whose three session-setup calls all succeed. -/
def ok_provider : BrowseProvider :=
  { new_result := 0, set_max_sockets_result := 0, start_config_result := 0 }

/-- C5 witness: two successive `start_scan` calls on a fresh state both
return success and the second changes nothing; `stop_scan` twice returns
success both times. -/
theorem c5_idempotence_witness :
    (dante_start_device_scan ok_provider fresh_state).1 = 0 ∧
      (dante_start_device_scan ok_provider
          (dante_start_device_scan ok_provider fresh_state).2).1 = 0 ∧
      (dante_start_device_scan ok_provider
          (dante_start_device_scan ok_provider fresh_state).2).2
        = (dante_start_device_scan ok_provider fresh_state).2 ∧
      (dante_stop_device_scan fresh_state).1 = 0 ∧
      (dante_stop_device_scan (dante_stop_device_scan fresh_state).2).1 = 0 := by
  have h := c5_idempotence ok_provider fresh_state rfl rfl rfl rfl rfl
  exact ⟨h.1, h.2.2.1, h.2.2.2.1, (h.2.2.2.2 fresh_state).1,
    (h.2.2.2.2 fresh_state).2.1⟩

/-- C6: when any of the three provider steps of `start_scan` fails, the call
returns failure and the partially constructed session is torn down: the
scanner is left inactive, with the browse handle, the scan flags, the device
table and the count all as they were before the call. -/
theorem c6_start_scan_unwind (p : BrowseProvider) (st : GlobalState)
    (henv : st.env = true) (hb : st.browse = false)
    (hfail : p.new_result ≠ AUD_SUCCESS ∨ p.set_max_sockets_result ≠ AUD_SUCCESS
      ∨ p.start_config_result ≠ AUD_SUCCESS) :
    (dante_start_device_scan p st).1 = -1 ∧
      (dante_start_device_scan p st).2.browse = false ∧
      (dante_start_device_scan p st).2.device_scan_active
        = st.device_scan_active ∧
      (dante_start_device_scan p st).2.background_scanning
        = st.background_scanning ∧
      (dante_start_device_scan p st).2.slots = st.slots ∧
      (dante_start_device_scan p st).2.device_count = st.device_count := by
  rcases hfail with h | h | h
  · simp [dante_start_device_scan, henv, hb, h]
  · by_cases h1 : p.new_result = AUD_SUCCESS
    · simp [dante_start_device_scan, henv, hb, h1, h]
    · simp [dante_start_device_scan, henv, hb, h1]
  · by_cases h1 : p.new_result = AUD_SUCCESS
    · by_cases h2 : p.set_max_sockets_result = AUD_SUCCESS
      · simp [dante_start_device_scan, henv, hb, h1, h2, h]
      · simp [dante_start_device_scan, henv, hb, h1, h2]
    · simp [dante_start_device_scan, henv, hb, h1]

/-- A provider whose `db_browse_new` call fails with code 1. -/
def fail_provider : BrowseProvider :=
  { new_result := 1, set_max_sockets_result := 0, start_config_result := 0 }

/-- C6 witness: a failing browse creation returns failure and leaves the
scanner inactive. -/
theorem c6_start_scan_unwind_witness :
    (dante_start_device_scan fail_provider fresh_state).1 = -1 ∧
      (dante_start_device_scan fail_provider fresh_state).2.browse = false := by
  have h := c6_start_scan_unwind fail_provider fresh_state rfl rfl
    (Or.inl (by decide))
  exact ⟨h.1, h.2.1⟩

/-- A local device that is still resolving for the first ten 1 Hz polls and
`Active` from the eleventh on — i.e. it becomes ready about 10 s after the
connection is opened. -/
def late_active_trace : Nat → DrDeviceState :=
  fun t => if t < 10 then DrDeviceState.resolving else DrDeviceState.active

/-- Local-device environment delivering `late_active_trace`. -/
def late_local_env : LocalDeviceEnv :=
  { open_result := 0, state_at := late_active_trace }

/-- C7: the source's wait loop uses `int timeout = 50` with 1-second sleeps —
a 50-second bound — although its own comment (`// 5秒超時`) and the spec say
5 seconds.  On a device that only becomes `Active` at the eleventh poll
(≈10 s), the code still returns success, while the 5-poll wait the spec
describes (`spec_wait_active`) has already timed out. -/
theorem c7_connect_timeout_code_bug :
    (dante_connect_local_device late_local_env fresh_state).1 = 0 ∧
      spec_wait_active late_active_trace = false := by decide

set_option maxRecDepth 4096 in
/-- Decimal rendering of a byte value takes at most three characters. -/
theorem toString_byte_length_le : ∀ n : Nat, n < 256 → (toString n).length ≤ 3 := by
  decide

/-- A `snprintf` into a buffer large enough for the string is a plain copy. -/
theorem snprintf_str_eq_of_le (size : Nat) (s : String)
    (h : s.length ≤ size - 1) : snprintf_str size s = s := by
  cases s with
  | mk data =>
    simp only [snprintf_str]
    rw [List.take_of_length_le h]

/-- C8: a successfully read 32-bit host-order address value is rendered as
four dot-separated decimal octets, most-significant byte first: the octets
are exactly the base-256 digits of the value, high digit leftmost. -/
theorem c8_ip_rendering (v : Nat) (hv : v < 2 ^ 32) :
    render_ip v
        = toString (v / 2 ^ 24) ++ "." ++ toString (v / 2 ^ 16 % 256) ++ "."
            ++ toString (v / 2 ^ 8 % 256) ++ "." ++ toString (v % 256) ∧
      v = (v / 2 ^ 24) * 2 ^ 24 + (v / 2 ^ 16 % 256) * 2 ^ 16
          + (v / 2 ^ 8 % 256) * 2 ^ 8 + v % 256 := by
  have hmask : ∀ w : Nat, w &&& 0xFF = w % 256 := by
    intro w
    rw [show (0xFF : Nat) = 2 ^ 8 - 1 from rfl, Nat.and_pow_two_sub_one_eq_mod]
  have hdivlt : v / 2 ^ 24 < 256 := by
    have h32 : (2 : Nat) ^ 32 = 256 * 2 ^ 24 := by norm_num
    exact (Nat.div_lt_iff_lt_mul (by positivity)).mpr (h32 ▸ hv)
  have ha : (v >>> 24) &&& 0xFF = v / 2 ^ 24 := by
    rw [Nat.shiftRight_eq_div_pow, hmask, Nat.mod_eq_of_lt hdivlt]
  have hb' : (v >>> 16) &&& 0xFF = v / 2 ^ 16 % 256 := by
    rw [Nat.shiftRight_eq_div_pow, hmask]
  have hc' : (v >>> 8) &&& 0xFF = v / 2 ^ 8 % 256 := by
    rw [Nat.shiftRight_eq_div_pow, hmask]
  have hd' : v &&& 0xFF = v % 256 := hmask v
  constructor
  · simp only [render_ip, ha, hb', hc', hd']
    apply snprintf_str_eq_of_le
    have l1 := toString_byte_length_le _ hdivlt
    have l2 := toString_byte_length_le (v / 2 ^ 16 % 256) (Nat.mod_lt _ (by norm_num))
    have l3 := toString_byte_length_le (v / 2 ^ 8 % 256) (Nat.mod_lt _ (by norm_num))
    have l4 := toString_byte_length_le (v % 256) (Nat.mod_lt _ (by norm_num))
    have ldot : ("." : String).length = 1 := rfl
    simp only [String.length_append, ldot]
    omega
  · have e24 : (2 : Nat) ^ 24 = 16777216 := by norm_num
    have e16 : (2 : Nat) ^ 16 = 65536 := by norm_num
    have e8 : (2 : Nat) ^ 8 = 256 := by norm_num
    have e32 : (2 : Nat) ^ 32 = 4294967296 := by norm_num
    rw [e24, e16, e8]
    rw [e32] at hv
    omega

/-- C8 witness: the value `0xC0A8000A` renders as `"192.168.0.10"`. -/
theorem c8_ip_rendering_witness : render_ip 3232235530 = "192.168.0.10" := by
  have h := (c8_ip_rendering 3232235530 (by norm_num)).1
  rw [h]
  decide

/-- C9, counterexample to the claim as stated: stopping the scan does not
destroy the records — on a state with an active scan and one discovered
device, after `stop_scan` the count is still 1 and the record is still
readable through `get_device_info`. -/
theorem c9_stop_scan_counterexample :
    (dante_stop_device_scan one_device_state).2.device_count = 1 ∧
      (dante_get_device_info 0 true (dante_stop_device_scan one_device_state).2).1
        = Except.ok sample_record :=
  ⟨rfl, rfl⟩

/-- C9 (amended): device records are destroyed when the wrapper is cleaned
up (`dante_cleanup`, the re-initialization path): afterwards the
discovered-device count is zero, the table is cleared, and no index is
readable any more; `stop_scan` alone tears down the browse session but
leaves the snapshot (count and records) intact and readable. -/
theorem c9_cleanup_destroys_records (st : GlobalState) :
    (dante_cleanup st).device_count = 0 ∧
      (dante_cleanup st).slots = [] ∧
      (∀ i : Int,
        (dante_get_device_info i true (dante_cleanup st)).1
          = Except.error DeviceInfoErr.indexOutOfRange) ∧
      (dante_stop_device_scan st).2.slots = st.slots ∧
      (dante_stop_device_scan st).2.device_count = st.device_count := by
  have hc : (dante_cleanup st).device_count = 0 := rfl
  refine ⟨rfl, rfl, ?_, ?_, ?_⟩
  · intro i
    simp only [dante_get_device_info]
    rw [if_neg (by simp), if_pos (by rw [hc]; omega)]
  · by_cases hx : st.browse = false <;> simp [dante_stop_device_scan, hx]
  · by_cases hx : st.browse = false <;> simp [dante_stop_device_scan, hx]

/-- C10: calling `get_device_info` with a NULL output pointer fails with the
invalid-pointer error and sets the last-error message; the device table and
the count are unchanged, whatever the index and the prior state — in
particular the result never depends on any device slot. -/
theorem c10_null_info_pointer (i : Int) (st : GlobalState) :
    (dante_get_device_info i false st).1
        = Except.error DeviceInfoErr.invalidPointer ∧
      (dante_get_device_info i false st).2
        = { st with error_buffer := "Invalid info pointer" } ∧
      (dante_get_device_info i false st).2.slots = st.slots ∧
      (dante_get_device_info i false st).2.device_count = st.device_count :=
  ⟨rfl, rfl, rfl, rfl⟩

end DanteWrapper
